import Mathlib

/-!
Verification of `data_channel_observer.cpp` from MixedReality-WebRTC
(`mrtk::net::webrtc_impl::DataChannelObserver`).

The observer is embedded shallowly: the underlying data channel is a record
of the three synchronous queries the observer can make on it (`state`, `id`,
`buffered_amount`), callback slots are registration flags, and each delivery
operation is a pure function returning the ordered list of channel queries it
performs, the ordered list of callback invocations it makes and the
resulting observer.  The handlers are `noexcept` in the source, so they are
embedded in `Except` with no error path.  The mutex discipline is modelled
separately as a lock-level transition system over instruction lists.
-/

/-- Model of the external library enum `webrtc::DataChannelInterface::DataState`,
whose variants are declared in the order kConnecting, kOpen, kClosing, kClosed
(C++ enum values 0, 1, 2, 3). -/
inductive RtcDataState
  | kConnecting
  | kOpen
  | kClosing
  | kClosed
deriving DecidableEq

/-- Numeric (underlying C++ enum) value of an `RtcDataState` variant. -/
def RtcDataState.toNat : RtcDataState → Nat
  | .kConnecting => 0
  | .kOpen => 1
  | .kClosing => 2
  | .kClosed => 3

/-- Modelled from the spec: the public API enum
`mrtk::net::webrtc_impl::DataChannelState` (its defining header is not among
the sources).  Per the spec its variants are {Connecting, Open, Closing,
Closed} and their integer encoding is contractually pinned to the internal
library encoding, exactly what the `static_assert`s in
`data_channel_observer.cpp` check variant by variant. -/
inductive DataChannelState
  | kConnecting
  | kOpen
  | kClosing
  | kClosed
deriving DecidableEq

/-- Numeric (underlying C++ enum) value of a `DataChannelState` variant. -/
def DataChannelState.toNat : DataChannelState → Nat
  | .kConnecting => 0
  | .kOpen => 1
  | .kClosing => 2
  | .kClosed => 3

/-- Reading a numeric value back as a `DataChannelState`: the meaning of the
C-style cast `(ApiDataState)rtcState` on the pinned encoding. -/
def DataChannelState.ofValue : Nat → DataChannelState
  | 0 => .kConnecting
  | 1 => .kOpen
  | 2 => .kClosing
  | _ => .kClosed

/-- `apiStateFromRtcState` from `data_channel_observer.cpp`: the translation
from the internal library state to the public API state, implemented in the
source as the bare numeric cast `(ApiDataState)rtcState`. -/
def apiStateFromRtcState (rtcState : RtcDataState) : DataChannelState :=
  DataChannelState.ofValue rtcState.toNat

/-- The explicit name-for-name mapping table described by the spec's words
(each internal variant to the public variant of the same name); the claim is
that the numeric cast agrees with this table. -/
def specStateTable : RtcDataState → DataChannelState
  | .kConnecting => .kConnecting
  | .kOpen => .kOpen
  | .kClosing => .kClosing
  | .kClosed => .kClosed

/-- `webrtc::DataBuffer` as the observer uses it: its byte contents
(`buffer.data.data()` / `buffer.data.size()`) and its binary flag. -/
structure DataBuffer where
  data : List Nat
  binary : Bool
deriving DecidableEq

/-- The underlying `webrtc::DataChannelInterface`, abstracted to the three
synchronous queries the observer performs on it. -/
structure DataChannel where
  state : RtcDataState
  id : Int
  buffered_amount : Nat
deriving DecidableEq

/-- `DataChannelObserver`: the shared channel reference and, modelled from the
spec (the declaring header is not among the sources), three independently
settable callback slots, here tracked as registration flags. -/
structure DataChannelObserver where
  data_channel_ : DataChannel
  state_callback_ : Bool
  message_callback_ : Bool
  buffering_callback_ : Bool
deriving DecidableEq

/-- A synchronous query performed on the underlying channel. -/
inductive ChannelQuery
  | state
  | id
  | buffered_amount
deriving DecidableEq

/-- A callback invocation made by the observer, with the exact arguments
passed: `stateChange` carries `((int)apiState, data_channel_->id())`,
`message` carries `(buffer.data.data(), buffer.data.size())`,
`bufferedAmountChange` carries `(previous_amount, current_amount,
max_capacity)`. -/
inductive CallbackEvent
  | stateChange (state : Int) (id : Int)
  | message (bytes : List Nat) (size : Nat)
  | bufferedAmountChange (previous : Nat) (current : Nat) (max : Nat)
deriving DecidableEq

/-- The observable outcome of one observer operation: the channel queries it
performed in order, the callback invocations it made in order, and the
observer afterwards. -/
structure DeliveryResult where
  queries : List ChannelQuery
  events : List CallbackEvent
  observer : DataChannelObserver
deriving DecidableEq

/-- `DataChannelObserver::OnStateChange` (noexcept): under the lock, return if
no state callback is registered; otherwise query the channel state, translate
it with `apiStateFromRtcState`, query the channel id, and invoke the state
callback once with `((int)apiState, data_channel_->id())`. -/
def DataChannelObserver.OnStateChange (o : DataChannelObserver) :
    Except String DeliveryResult :=
  if !o.state_callback_ then
    .ok ⟨[], [], o⟩
  else
    let apiState := apiStateFromRtcState o.data_channel_.state
    .ok ⟨[ChannelQuery.state, ChannelQuery.id],
         [CallbackEvent.stateChange (apiState.toNat : Int) o.data_channel_.id],
         o⟩

/-- `DataChannelObserver::OnMessage` (noexcept): under the lock, return if no
message callback is registered; otherwise invoke the message callback once
with `(buffer.data.data(), buffer.data.size())`. -/
def DataChannelObserver.OnMessage (o : DataChannelObserver)
    (buffer : DataBuffer) : Except String DeliveryResult :=
  if !o.message_callback_ then
    .ok ⟨[], [], o⟩
  else
    .ok ⟨[], [CallbackEvent.message buffer.data buffer.data.length], o⟩

/-- `DataChannelObserver::OnBufferedAmountChange` (noexcept): under the lock,
return if no buffering callback is registered; otherwise query the channel's
current buffered amount and invoke the buffering callback once with
`(previous_amount, current_amount, max_capacity)` where
`max_capacity = 0x1000000`. -/
def DataChannelObserver.OnBufferedAmountChange (o : DataChannelObserver)
    (previous_amount : Nat) : Except String DeliveryResult :=
  if !o.buffering_callback_ then
    .ok ⟨[], [], o⟩
  else
    let current_amount := o.data_channel_.buffered_amount
    let max_capacity : Nat := 0x1000000
    .ok ⟨[ChannelQuery.buffered_amount],
         [CallbackEvent.bufferedAmountChange previous_amount current_amount
            max_capacity],
         o⟩

/-- The constructor `DataChannelObserver::DataChannelObserver`: its whole body
is the initializer storing the shared channel reference; it performs no
queries and no callback invocations.  Modelled from the spec for the slot
defaults: the declaring header is not among the sources, and per the spec no
callback slot is registered at construction. -/
def DataChannelObserver.construct (data_channel : DataChannel) :
    DeliveryResult :=
  ⟨[], [], ⟨data_channel, false, false, false⟩⟩

/-- C1: for each of the four variants the numeric value of the public
`DataChannelState` variant equals the numeric value of the internal
`RtcDataState` variant of the same name, and consequently the bare numeric
cast `apiStateFromRtcState` coincides with the explicit name-for-name mapping
table on all four variants. -/
theorem apiStateFromRtcState_eq_table :
    RtcDataState.kConnecting.toNat = DataChannelState.kConnecting.toNat ∧
    RtcDataState.kOpen.toNat = DataChannelState.kOpen.toNat ∧
    RtcDataState.kClosing.toNat = DataChannelState.kClosing.toNat ∧
    RtcDataState.kClosed.toNat = DataChannelState.kClosed.toNat ∧
    ∀ s : RtcDataState, apiStateFromRtcState s = specStateTable s := by
  refine ⟨rfl, rfl, rfl, rfl, ?_⟩
  intro s
  cases s <;> rfl

/-- C2: with a state callback registered, `OnStateChange` queries the
channel's current state and numeric id and invokes the state callback exactly
once, with the translated state and that id. -/
theorem OnStateChange_delivers (o : DataChannelObserver)
    (h : o.state_callback_ = true) :
    o.OnStateChange =
      .ok ⟨[ChannelQuery.state, ChannelQuery.id],
           [CallbackEvent.stateChange
              ((apiStateFromRtcState o.data_channel_.state).toNat : Int)
              o.data_channel_.id],
           o⟩ := by
  simp [DataChannelObserver.OnStateChange, h]

/-- Witness for C2: a channel reporting state Open and id 7 makes the
registered state callback fire exactly once with (Open = 1, 7). -/
theorem OnStateChange_delivers_witness :
    (DataChannelObserver.mk ⟨RtcDataState.kOpen, 7, 0⟩ true false false).OnStateChange =
      .ok ⟨[ChannelQuery.state, ChannelQuery.id],
           [CallbackEvent.stateChange 1 7],
           ⟨⟨RtcDataState.kOpen, 7, 0⟩, true, false, false⟩⟩ :=
  OnStateChange_delivers ⟨⟨RtcDataState.kOpen, 7, 0⟩, true, false, false⟩ rfl

/-- C3: with a message callback registered, `OnMessage` invokes the message
callback exactly once, passing the delivered buffer's bytes and its length. -/
theorem OnMessage_delivers (o : DataChannelObserver) (buffer : DataBuffer)
    (h : o.message_callback_ = true) :
    o.OnMessage buffer =
      .ok ⟨[], [CallbackEvent.message buffer.data buffer.data.length], o⟩ := by
  simp [DataChannelObserver.OnMessage, h]

/-- Witness for C3: a delivered buffer of bytes [0x01, 0x02, 0x03] reaches the
registered message callback exactly once, as those 3 bytes with length 3. -/
theorem OnMessage_delivers_witness :
    (DataChannelObserver.mk ⟨RtcDataState.kOpen, 1, 0⟩ false true false).OnMessage
        ⟨[1, 2, 3], true⟩ =
      .ok ⟨[], [CallbackEvent.message [1, 2, 3] 3],
           ⟨⟨RtcDataState.kOpen, 1, 0⟩, false, true, false⟩⟩ :=
  OnMessage_delivers ⟨⟨RtcDataState.kOpen, 1, 0⟩, false, true, false⟩
    ⟨[1, 2, 3], true⟩ rfl

/-- C4: with a buffering callback registered, `OnBufferedAmountChange` with
previous amount p queries the channel's current buffered amount c afresh and
invokes the buffering callback exactly once with (p, c, 16777216), the third
argument being the fixed constant 0x1000000 independent of input and state. -/
theorem OnBufferedAmountChange_delivers (o : DataChannelObserver)
    (previous_amount : Nat) (h : o.buffering_callback_ = true) :
    o.OnBufferedAmountChange previous_amount =
      .ok ⟨[ChannelQuery.buffered_amount],
           [CallbackEvent.bufferedAmountChange previous_amount
              o.data_channel_.buffered_amount 16777216],
           o⟩ := by
  simp [DataChannelObserver.OnBufferedAmountChange, h]

/-- Witness for C4: previous amount 100 and a channel reporting 250 queued
bytes make the registered buffering callback fire once with
(100, 250, 16777216). -/
theorem OnBufferedAmountChange_delivers_witness :
    (DataChannelObserver.mk ⟨RtcDataState.kOpen, 1, 250⟩ false false true).OnBufferedAmountChange
        100 =
      .ok ⟨[ChannelQuery.buffered_amount],
           [CallbackEvent.bufferedAmountChange 100 250 16777216],
           ⟨⟨RtcDataState.kOpen, 1, 250⟩, false, false, true⟩⟩ :=
  OnBufferedAmountChange_delivers ⟨⟨RtcDataState.kOpen, 1, 250⟩, false, false, true⟩
    100 rfl

/-- C5: for each of the three delivery operations, when the corresponding
callback slot is not registered the operation has no observable effect: no
channel query, no callback invocation of any kind, no error, and the observer
is unchanged (the event is dropped). -/
theorem unregistered_delivery_no_effect (o : DataChannelObserver)
    (buffer : DataBuffer) (previous_amount : Nat) :
    (o.state_callback_ = false → o.OnStateChange = .ok ⟨[], [], o⟩) ∧
    (o.message_callback_ = false → o.OnMessage buffer = .ok ⟨[], [], o⟩) ∧
    (o.buffering_callback_ = false →
      o.OnBufferedAmountChange previous_amount = .ok ⟨[], [], o⟩) := by
  refine ⟨fun h => ?_, fun h => ?_, fun h => ?_⟩ <;>
    simp [DataChannelObserver.OnStateChange, DataChannelObserver.OnMessage,
      DataChannelObserver.OnBufferedAmountChange, h]

/-- Witness for C5: on an observer with no callback registered, all three
delivery operations drop the event with no effect. -/
theorem unregistered_delivery_no_effect_witness :
    (DataChannelObserver.mk ⟨RtcDataState.kClosing, 2, 9⟩ false false false).OnStateChange =
        .ok ⟨[], [], ⟨⟨RtcDataState.kClosing, 2, 9⟩, false, false, false⟩⟩ ∧
    (DataChannelObserver.mk ⟨RtcDataState.kClosing, 2, 9⟩ false false false).OnMessage
        ⟨[5], false⟩ =
        .ok ⟨[], [], ⟨⟨RtcDataState.kClosing, 2, 9⟩, false, false, false⟩⟩ ∧
    (DataChannelObserver.mk ⟨RtcDataState.kClosing, 2, 9⟩ false false false).OnBufferedAmountChange
        11 =
        .ok ⟨[], [], ⟨⟨RtcDataState.kClosing, 2, 9⟩, false, false, false⟩⟩ := by
  have h := unregistered_delivery_no_effect
    ⟨⟨RtcDataState.kClosing, 2, 9⟩, false, false, false⟩ ⟨[5], false⟩ 11
  exact ⟨h.1 rfl, h.2.1 rfl, h.2.2 rfl⟩

/-- C6: none of the three delivery operations propagates a failure to its
caller: for every observer and every input, each operation returns a result
and never an error. -/
theorem delivery_never_throws (o : DataChannelObserver) (buffer : DataBuffer)
    (previous_amount : Nat) :
    (∃ r, o.OnStateChange = .ok r) ∧
    (∃ r, o.OnMessage buffer = .ok r) ∧
    (∃ r, o.OnBufferedAmountChange previous_amount = .ok r) := by
  refine ⟨?_, ?_, ?_⟩
  · cases h : o.state_callback_
    · exact ⟨⟨[], [], o⟩, by simp [DataChannelObserver.OnStateChange, h]⟩
    · exact ⟨⟨[ChannelQuery.state, ChannelQuery.id],
        [CallbackEvent.stateChange
          ((apiStateFromRtcState o.data_channel_.state).toNat : Int)
          o.data_channel_.id], o⟩,
        by simp [DataChannelObserver.OnStateChange, h]⟩
  · cases h : o.message_callback_
    · exact ⟨⟨[], [], o⟩, by simp [DataChannelObserver.OnMessage, h]⟩
    · exact ⟨⟨[], [CallbackEvent.message buffer.data buffer.data.length], o⟩,
        by simp [DataChannelObserver.OnMessage, h]⟩
  · cases h : o.buffering_callback_
    · exact ⟨⟨[], [], o⟩,
        by simp [DataChannelObserver.OnBufferedAmountChange, h]⟩
    · exact ⟨⟨[ChannelQuery.buffered_amount],
        [CallbackEvent.bufferedAmountChange previous_amount
          o.data_channel_.buffered_amount 16777216], o⟩,
        by simp [DataChannelObserver.OnBufferedAmountChange, h]⟩

/-- C8: every delivery operation leaves the observer's fields (the channel
reference and the three callback slots) unchanged and never mutates the
underlying channel: the resulting observer, channel included, equals the
starting one, and the channel is touched only through the recorded queries. -/
theorem delivery_preserves_observer (o : DataChannelObserver)
    (buffer : DataBuffer) (previous_amount : Nat) :
    o.OnStateChange.map DeliveryResult.observer = .ok o ∧
    (o.OnMessage buffer).map DeliveryResult.observer = .ok o ∧
    (o.OnBufferedAmountChange previous_amount).map DeliveryResult.observer =
      .ok o := by
  refine ⟨?_, ?_, ?_⟩ <;>
    [cases h : o.state_callback_; cases h : o.message_callback_;
     cases h : o.buffering_callback_] <;>
    simp [DataChannelObserver.OnStateChange, DataChannelObserver.OnMessage,
      DataChannelObserver.OnBufferedAmountChange, h, Except.map]

/-- C9: constructing an observer from a channel handle stores that reference
and does nothing else: no callback slot is set, no channel query is made and
no callback is invoked. -/
theorem construct_only_stores_reference (data_channel : DataChannel) :
    (DataChannelObserver.construct data_channel).observer =
        ⟨data_channel, false, false, false⟩ ∧
    (DataChannelObserver.construct data_channel).queries = [] ∧
    (DataChannelObserver.construct data_channel).events = [] :=
  ⟨rfl, rfl, rfl⟩

/-- C10: with the matching callback slot empty, a delivery operation returns
before querying the channel at all: `OnStateChange` performs neither the
state nor the id query, `OnMessage` performs no query, and
`OnBufferedAmountChange` does not perform the buffered-amount query. -/
theorem unregistered_delivery_no_query (o : DataChannelObserver)
    (buffer : DataBuffer) (previous_amount : Nat) :
    (o.state_callback_ = false →
      o.OnStateChange.map DeliveryResult.queries = .ok []) ∧
    (o.message_callback_ = false →
      (o.OnMessage buffer).map DeliveryResult.queries = .ok []) ∧
    (o.buffering_callback_ = false →
      (o.OnBufferedAmountChange previous_amount).map DeliveryResult.queries =
        .ok []) := by
  refine ⟨fun h => ?_, fun h => ?_, fun h => ?_⟩ <;>
    simp [DataChannelObserver.OnStateChange, DataChannelObserver.OnMessage,
      DataChannelObserver.OnBufferedAmountChange, h, Except.map]

/-- Witness for C10: on an observer with no callback registered, each of the
three delivery operations performs zero channel queries. -/
theorem unregistered_delivery_no_query_witness :
    (DataChannelObserver.mk ⟨RtcDataState.kConnecting, 3, 42⟩ false false false).OnStateChange.map
        DeliveryResult.queries = .ok [] ∧
    ((DataChannelObserver.mk ⟨RtcDataState.kConnecting, 3, 42⟩ false false false).OnMessage
        ⟨[7, 8], true⟩).map DeliveryResult.queries = .ok [] ∧
    ((DataChannelObserver.mk ⟨RtcDataState.kConnecting, 3, 42⟩ false false false).OnBufferedAmountChange
        5).map DeliveryResult.queries = .ok [] := by
  have h := unregistered_delivery_no_query
    ⟨⟨RtcDataState.kConnecting, 3, 42⟩, false, false, false⟩ ⟨[7, 8], true⟩ 5
  exact ⟨h.1 rfl, h.2.1 rfl, h.2.2 rfl⟩

/-- A lock-level instruction of a critical section guarded by the observer's
single mutex: acquiring the `std::lock_guard`, one guarded action (a channel
query, a callback invocation, or a slot write), or releasing the guard. -/
inductive LockInstr
  | acquire
  | work
  | release
deriving DecidableEq

/-- Lock-level shape of `OnStateChange`: the `lock_guard` acquires the mutex;
if the state callback is registered the body queries the state, queries the
id and invokes the callback; the guard's destructor releases the mutex (also
on the early return). -/
def onStateChangeProg (registered : Bool) : List LockInstr :=
  [LockInstr.acquire] ++
    (if registered then [LockInstr.work, LockInstr.work, LockInstr.work]
     else []) ++
    [LockInstr.release]

/-- Lock-level shape of `OnMessage`: acquire; if the message callback is
registered, invoke it; release. -/
def onMessageProg (registered : Bool) : List LockInstr :=
  [LockInstr.acquire] ++
    (if registered then [LockInstr.work] else []) ++
    [LockInstr.release]

/-- Lock-level shape of `OnBufferedAmountChange`: acquire; if the buffering
callback is registered, query the buffered amount and invoke the callback;
release. -/
def onBufferedAmountChangeProg (registered : Bool) : List LockInstr :=
  [LockInstr.acquire] ++
    (if registered then [LockInstr.work, LockInstr.work] else []) ++
    [LockInstr.release]

/-- Modelled from the spec: a callback-slot mutation (the registration API's
header is not among the sources) acquires the same mutex, writes the slot and
releases. -/
def setCallbackProg : List LockInstr := [LockInstr.acquire, LockInstr.work,
  LockInstr.release]

/-- A thread running against one observer: its remaining instructions and
whether it currently sits inside the mutex-guarded critical section. -/
structure LockThread where
  prog : List LockInstr
  inCrit : Bool
deriving DecidableEq

/-- A configuration of the observer's mutex: the threads and the mutex state
(`some i` when thread `i` holds it, `none` when free). -/
structure LockConfig where
  threads : List LockThread
  lock : Option Nat
deriving DecidableEq

/-- Interleaving small-step semantics of the observer's single mutex: a
thread may acquire only a free mutex (entering its critical section), may
perform guarded work, and releases the mutex it holds when its guard is
destroyed (leaving the critical section). -/
inductive LockStep : LockConfig → LockConfig → Prop where
  | acquire (c : LockConfig) (i : Nat) (t : LockThread) (rest : List LockInstr)
      (hi : c.threads[i]? = some t) (hp : t.prog = LockInstr.acquire :: rest)
      (hl : c.lock = none) :
      LockStep c ⟨c.threads.set i ⟨rest, true⟩, some i⟩
  | work (c : LockConfig) (i : Nat) (t : LockThread) (rest : List LockInstr)
      (hi : c.threads[i]? = some t) (hp : t.prog = LockInstr.work :: rest) :
      LockStep c ⟨c.threads.set i ⟨rest, t.inCrit⟩, c.lock⟩
  | release (c : LockConfig) (i : Nat) (t : LockThread) (rest : List LockInstr)
      (hi : c.threads[i]? = some t) (hp : t.prog = LockInstr.release :: rest)
      (hl : c.lock = some i) :
      LockStep c ⟨c.threads.set i ⟨rest, false⟩, none⟩

/-- Mutex invariant: a thread inside its critical section holds the mutex. -/
def LockInv (c : LockConfig) : Prop :=
  ∀ i t, c.threads[i]? = some t → t.inCrit = true → c.lock = some i

/-- In the initial configuration (no thread started, mutex free) the mutex
invariant holds. -/
theorem lockInv_init (ps : List (List LockInstr)) :
    LockInv ⟨ps.map (fun p => ⟨p, false⟩), none⟩ := by
  intro i t ht hc
  rw [List.getElem?_map] at ht
  cases hp : ps[i]? with
  | none => rw [hp] at ht; cases ht
  | some p =>
    rw [hp] at ht
    cases ht
    cases hc

/-- The mutex invariant is preserved by every step of the interleaving
semantics. -/
theorem lockInv_step {c c' : LockConfig} (hinv : LockInv c)
    (hstep : LockStep c c') : LockInv c' := by
  cases hstep with
  | acquire i t rest hi hp hl =>
    intro j t' hj hc'
    by_cases hij : i = j
    · exact congrArg some hij
    · rw [List.getElem?_set_ne hij] at hj
      exact absurd (hinv j t' hj hc') (by rw [hl]; exact Option.noConfusion)
  | work i t rest hi hp =>
    intro j t' hj hc'
    by_cases hij : i = j
    · subst hij
      rw [List.getElem?_set_self', hi] at hj
      cases hj
      exact hinv i t hi hc'
    · rw [List.getElem?_set_ne hij] at hj
      exact hinv j t' hj hc'
  | release i t rest hi hp hl =>
    intro j t' hj hc'
    by_cases hij : i = j
    · subst hij
      rw [List.getElem?_set_self', hi] at hj
      cases hj
      cases hc'
    · rw [List.getElem?_set_ne hij] at hj
      have := (hinv j t' hj hc').symm.trans hl
      exact absurd (Option.some.inj this) (Ne.symm hij)

/-- The mutex invariant holds in every configuration reachable from one
satisfying it. -/
theorem lockInv_reachable {c c' : LockConfig} (h0 : LockInv c)
    (h : Relation.ReflTransGen LockStep c c') : LockInv c' := by
  induction h with
  | refl => exact h0
  | tail _ hstep ih => exact lockInv_step ih hstep

/-- C7: mutual exclusion on one observer.  Starting any collection of threads
each running a delivery operation (`OnStateChange`, `OnMessage`,
`OnBufferedAmountChange`) or a callback-slot mutation — all of which acquire
the observer's single mutex — then in every reachable configuration at most
one thread is inside its critical section: two threads both in their
critical sections are the same thread, so no two delivery operations run
concurrently and no slot mutation overlaps an in-flight delivery. -/
theorem observer_mutual_exclusion (ps : List (List LockInstr))
    (_hps : ∀ p ∈ ps, (∃ b, p = onStateChangeProg b) ∨
      (∃ b, p = onMessageProg b) ∨
      (∃ b, p = onBufferedAmountChangeProg b) ∨ p = setCallbackProg)
    (c : LockConfig)
    (hreach : Relation.ReflTransGen LockStep
      ⟨ps.map (fun p => ⟨p, false⟩), none⟩ c)
    (i j : Nat) (ti tj : LockThread)
    (hi : c.threads[i]? = some ti) (hj : c.threads[j]? = some tj)
    (hci : ti.inCrit = true) (hcj : tj.inCrit = true) : i = j := by
  have hinv := lockInv_reachable (lockInv_init ps) hreach
  have h1 := hinv i ti hi hci
  have h2 := hinv j tj hj hcj
  exact Option.some.inj (h1.symm.trans h2)

/-- Witness for C7: two threads against one observer, one running
`OnStateChange` with a registered callback and one mutating a slot; after the
first acquires the mutex, any two threads inside the critical section
coincide (here trivially thread 0 with itself). -/
theorem observer_mutual_exclusion_witness : (0 : Nat) = 0 :=
  observer_mutual_exclusion [onStateChangeProg true, setCallbackProg]
    (by
      intro p hp
      simp only [List.mem_cons, List.not_mem_nil, or_false] at hp
      rcases hp with rfl | rfl
      · exact Or.inl ⟨true, rfl⟩
      · exact Or.inr (Or.inr (Or.inr rfl)))
    ⟨[⟨[LockInstr.work, LockInstr.work, LockInstr.work, LockInstr.release],
        true⟩,
      ⟨setCallbackProg, false⟩], some 0⟩
    (Relation.ReflTransGen.single
      (LockStep.acquire
        ⟨[⟨onStateChangeProg true, false⟩, ⟨setCallbackProg, false⟩], none⟩
        0 ⟨onStateChangeProg true, false⟩
        [LockInstr.work, LockInstr.work, LockInstr.work, LockInstr.release]
        rfl rfl rfl))
    0 0
    ⟨[LockInstr.work, LockInstr.work, LockInstr.work, LockInstr.release],
      true⟩
    ⟨[LockInstr.work, LockInstr.work, LockInstr.work, LockInstr.release],
      true⟩
    rfl rfl rfl rfl
